import Mathlib

/-!
Verification development for the wasm-peers signaling server and peer library.

The definitions below are shallow embeddings of the Rust sources:

- src/signaling-server/src/many_to_many.rs   (N:N handler, wasm_peers_protocol::one_to_many messages)
- src/signaling-server/src/one_to_one.rs     (1:1 handler, rusty_games_protocol::one_to_one messages)
- src/signaling-server/src/one_to_many.rs    (1:N handler, rusty_games_protocol root messages)
- src/signaling-server/src/main.rs           (CLI entry point)
- src/library/src/one_to_many/websocket_handler.rs and callbacks.rs (peer-side 1:N library)

Conventions of the embedding:
- SessionId is the underlying String, UserId the underlying usize (modeled as Nat).
- HashMap registries are modeled as association lists; HashSet membership as List
  membership.  Iteration order of a hash map is unspecified in Rust, so the list
  order stands for one possible iteration order.
- Each handler arm is a pure function from (sender, message, state) to a record
  holding the new state, the list of (recipient, message) pairs pushed into the
  per-user outbound queues, an errored flag for arms that return Err, and a
  panicked flag for .unwrap()/.expect() calls that would abort the task.
- serde serialization of the message enums cannot fail and is treated as identity.
-/

/-- Session identifier: clients supply an opaque string (SessionId wraps String). -/
abbrev SessionId := String

/-- User identifier: the server wraps a usize counter value (UserId wraps usize). -/
abbrev UserId := Nat

/-! ### Protocol: wasm_peers_protocol::one_to_many (src/protocol/src/one_to_many.rs)

This enum is used both by the many-to-many server handler
(src/signaling-server/src/many_to_many.rs) and by the peer-side one-to-many
library (src/library/src/one_to_many). -/

/-- SignalMessage of the wasm-peers one-to-many protocol. -/
inductive OTMSignalMessage where
  | sessionJoin (sessionId : SessionId) (isHost : Bool)
  | sessionReady (sessionId : SessionId) (userId : UserId)
  | sdpOffer (sessionId : SessionId) (userId : UserId) (sdp : String)
  | sdpAnswer (sessionId : SessionId) (userId : UserId) (sdp : String)
  | iceCandidate (sessionId : SessionId) (userId : UserId) (candidate : String)
  | errorMsg (sessionId : SessionId) (message : String)
  deriving DecidableEq, Repr

/-- True exactly on the Error variant of the one-to-many protocol. -/
def OTMSignalMessage.isErr : OTMSignalMessage → Bool
  | .errorMsg _ _ => true
  | _ => false

/-! ### Server: many-to-many handler (src/signaling-server/src/many_to_many.rs) -/

/-- Session of the many-to-many registry: struct Session { users: HashSet of UserId }. -/
structure MMSession where
  users : List UserId
  deriving DecidableEq, Repr

/-- Shared server state of the many-to-many handler: the Connections map
(modeled by its key set, since only key membership is observable here) and the
Sessions map. -/
structure MMServerState where
  connections : List UserId
  sessions : List (SessionId × MMSession)
  deriving DecidableEq, Repr

/-- Result of one call to user_message: new state, messages pushed to outbound
queues, whether the function returned Err, whether an .expect() fired. -/
structure MMStepResult where
  state : MMServerState
  sends : List (UserId × OTMSignalMessage)
  errored : Bool
  panicked : Bool
  deriving DecidableEq, Repr

/-- entry(key).or_insert_with(default) followed by writing the updated session
back: replace the binding if the key is present, append it otherwise. -/
def mmUpdateSessions (sessions : List (SessionId × MMSession)) (sid : SessionId)
    (s : MMSession) : List (SessionId × MMSession) :=
  if sessions.any (fun p => p.1 = sid) then
    sessions.map (fun p => if p.1 = sid then (sid, s) else p)
  else
    sessions ++ [(sid, s)]

/-- user_message of many_to_many.rs.  The SessionJoin arm sends one
SessionReady(session_id, client_id) to the SENDER per user already in the
session (host_tx is looked up with the sender's id), then inserts the sender
into the session's user set.  The three forward arms rebuild the message with
the sender's id in the user-id slot and push it to the stated recipient if that
recipient is in the Connections map; SdpOffer/SdpAnswer merely log a warning
otherwise, IceCandidate returns Err. -/
def mmUserMessage (senderId : UserId) (msg : OTMSignalMessage) (st : MMServerState) :
    MMStepResult :=
  match msg with
  | .sessionJoin sid _isHost =>
      let session := (st.sessions.lookup sid).getD ⟨[]⟩
      let sends := if senderId ∈ st.connections then
          session.users.map (fun clientId => (senderId, OTMSignalMessage.sessionReady sid clientId))
        else []
      let panicked := decide (¬ senderId ∈ st.connections ∧ session.users ≠ [])
      let session2 : MMSession :=
        ⟨if senderId ∈ session.users then session.users else session.users ++ [senderId]⟩
      { state := { st with sessions := mmUpdateSessions st.sessions sid session2 },
        sends := sends, errored := false, panicked := panicked }
  | .sdpOffer sid recipientId offer =>
      { state := st,
        sends := if recipientId ∈ st.connections then
            [(recipientId, OTMSignalMessage.sdpOffer sid senderId offer)]
          else [],
        errored := false, panicked := false }
  | .sdpAnswer sid recipientId answer =>
      { state := st,
        sends := if recipientId ∈ st.connections then
            [(recipientId, OTMSignalMessage.sdpAnswer sid senderId answer)]
          else [],
        errored := false, panicked := false }
  | .iceCandidate sid recipientId candidate =>
      { state := st,
        sends := if recipientId ∈ st.connections then
            [(recipientId, OTMSignalMessage.iceCandidate sid senderId candidate)]
          else [],
        errored := decide (¬ recipientId ∈ st.connections), panicked := false }
  | _ =>
      { state := st, sends := [], errored := false, panicked := false }

/-- The session scan of user_disconnected in many_to_many.rs: remove the user
from each session in iteration order; as soon as a session's user set is empty,
remember it for deletion and BREAK out of the loop (later sessions are left
untouched).  Returns the scanned list and the remembered session id. -/
def mmDisconnectScan (uid : UserId) :
    List (SessionId × MMSession) → List (SessionId × MMSession) × Option SessionId
  | [] => ([], none)
  | (sid, s) :: rest =>
      let s2 : MMSession := ⟨s.users.erase uid⟩
      if s2.users.isEmpty then
        ((sid, s2) :: rest, some sid)
      else
        let scanned := mmDisconnectScan uid rest
        ((sid, s2) :: scanned.1, scanned.2)

/-- user_disconnected of many_to_many.rs: drop the connection entry, run the
session scan, then remove the single remembered empty session (if any). -/
def mmUserDisconnected (uid : UserId) (st : MMServerState) : MMServerState :=
  let connections2 := st.connections.filter (fun u => u ≠ uid)
  let scanned := mmDisconnectScan uid st.sessions
  let sessions2 := match scanned.2 with
    | some sid => scanned.1.filter (fun p => p.1 ≠ sid)
    | none => scanned.1
  ⟨connections2, sessions2⟩

/-! ### Protocol: rusty_games_protocol::one_to_one, as used by
src/signaling-server/src/one_to_one.rs -/

/-- SignalMessage of the one-to-one protocol (src/protocol/src/one_to_one.rs):
SessionJoin carries only the session id, SessionReady carries the is_host flag,
and the forwarded messages carry no peer-id slot at all (the recipient is the
other session member).  The ICE candidate payload is kept opaque. -/
inductive OOSignalMessage where
  | sessionJoin (sessionId : SessionId)
  | sessionReady (sessionId : SessionId) (isHost : Bool)
  | sdpOffer (sessionId : SessionId) (sdp : String)
  | sdpAnswer (sessionId : SessionId) (sdp : String)
  | iceCandidate (sessionId : SessionId) (candidate : String)
  | errorMsg (sessionId : SessionId) (message : String)
  deriving DecidableEq, Repr

/-! ### Server: one-to-one handler (src/signaling-server/src/one_to_one.rs) -/

/-- Session of the one-to-one registry:
struct Session { first: Option of UserId, second: Option of UserId, offer_received: bool }. -/
structure OOSession where
  first : Option UserId
  second : Option UserId
  offer_received : Bool
  deriving DecidableEq, Repr

/-- Shared server state of the one-to-one handler. -/
structure OOServerState where
  connections : List UserId
  sessions : List (SessionId × OOSession)
  deriving DecidableEq, Repr

/-- Result of one call to one_to_one user_message. -/
structure OOStepResult where
  state : OOServerState
  sends : List (UserId × OOSignalMessage)
  panicked : Bool
  deriving DecidableEq, Repr

/-- Replace the binding for a session id known to be present. -/
def ooUpdateSessions (sessions : List (SessionId × OOSession)) (sid : SessionId)
    (s : OOSession) : List (SessionId × OOSession) :=
  sessions.map (fun p => if p.1 = sid then (sid, s) else p)

/-- The recipient computation shared by the three forward arms of
one_to_one.rs: if the sender is first, the recipient is second, otherwise it is
first. -/
def ooRecipient (userId : UserId) (s : OOSession) : Option UserId :=
  if some userId = s.first then s.second else s.first

/-- user_message of one_to_one.rs.  SessionJoin on a vacant entry records the
sender as first; on an occupied entry it unconditionally overwrites second with
the sender and, when first is set, sends SessionReady(sid, true) to first and
SessionReady(sid, false) to the sender.  SdpOffer sets the offer_received flag
(logging a warning when it was already set) and then relays the offer to the
other member regardless of the flag; SdpAnswer and IceCandidate relay without
touching the session.  Lookups of a recipient's connection use .unwrap(), so a
missing connection entry panics. -/
def ooUserMessage (userId : UserId) (msg : OOSignalMessage) (st : OOServerState) :
    OOStepResult :=
  match msg with
  | .sessionJoin sid =>
      match st.sessions.lookup sid with
      | none =>
          { state := { st with
              sessions := st.sessions ++ [(sid, ⟨some userId, none, false⟩)] },
            sends := [], panicked := false }
      | some s =>
          let s2 : OOSession := { s with second := some userId }
          let st2 : OOServerState := { st with sessions := ooUpdateSessions st.sessions sid s2 }
          match s.first with
          | some firstId =>
              if firstId ∈ st.connections then
                if userId ∈ st.connections then
                  { state := st2,
                    sends := [(firstId, OOSignalMessage.sessionReady sid true),
                              (userId, OOSignalMessage.sessionReady sid false)],
                    panicked := false }
                else
                  { state := st2,
                    sends := [(firstId, OOSignalMessage.sessionReady sid true)],
                    panicked := true }
              else
                { state := st2, sends := [], panicked := true }
          | none =>
              { state := st2, sends := [], panicked := false }
  | .sdpOffer sid offer =>
      match st.sessions.lookup sid with
      | some s =>
          let s2 := if s.offer_received then s else { s with offer_received := true }
          let st2 : OOServerState := { st with sessions := ooUpdateSessions st.sessions sid s2 }
          match ooRecipient userId s with
          | some recipientId =>
              if recipientId ∈ st.connections then
                { state := st2,
                  sends := [(recipientId, OOSignalMessage.sdpOffer sid offer)],
                  panicked := false }
              else
                { state := st2, sends := [], panicked := true }
          | none =>
              { state := st2, sends := [], panicked := false }
      | none =>
          { state := st, sends := [], panicked := false }
  | .sdpAnswer sid answer =>
      match st.sessions.lookup sid with
      | some s =>
          match ooRecipient userId s with
          | some recipientId =>
              if recipientId ∈ st.connections then
                { state := st,
                  sends := [(recipientId, OOSignalMessage.sdpAnswer sid answer)],
                  panicked := false }
              else
                { state := st, sends := [], panicked := true }
          | none =>
              { state := st, sends := [], panicked := false }
      | none =>
          { state := st, sends := [], panicked := false }
  | .iceCandidate sid candidate =>
      match st.sessions.lookup sid with
      | some s =>
          match ooRecipient userId s with
          | some recipientId =>
              if recipientId ∈ st.connections then
                { state := st,
                  sends := [(recipientId, OOSignalMessage.iceCandidate sid candidate)],
                  panicked := false }
              else
                { state := st, sends := [], panicked := true }
          | none =>
              { state := st, sends := [], panicked := false }
      | none =>
          { state := st, sends := [], panicked := false }
  | _ =>
      { state := st, sends := [], panicked := false }

/-- The session scan of user_disconnected in one_to_one.rs: clear the first or
second slot matching the user in every session (no early exit), while the
single session_to_delete variable is overwritten by each session found empty,
so only the LAST empty session in iteration order survives the scan. -/
def ooDisconnectScan (uid : UserId) :
    List (SessionId × OOSession) → List (SessionId × OOSession) × Option SessionId
  | [] => ([], none)
  | (sid, s) :: rest =>
      let s2 : OOSession :=
        if s.first = some uid then { s with first := none }
        else if s.second = some uid then { s with second := none }
        else s
      let found : Option SessionId :=
        if s2.first = none ∧ s2.second = none then some sid else none
      let scanned := ooDisconnectScan uid rest
      ((sid, s2) :: scanned.1,
        match scanned.2 with
        | some x => some x
        | none => found)

/-- user_disconnected of one_to_one.rs: run the session scan, remove the single
remembered empty session (if any), then drop the connection entry. -/
def ooUserDisconnected (uid : UserId) (st : OOServerState) : OOServerState :=
  let scanned := ooDisconnectScan uid st.sessions
  let sessions2 := match scanned.2 with
    | some sid => scanned.1.filter (fun p => p.1 ≠ sid)
    | none => scanned.1
  ⟨st.connections.filter (fun u => u ≠ uid), sessions2⟩

/-! ### Server: one-to-many handler (src/signaling-server/src/one_to_many.rs)

The handler uses the rusty_games_protocol root SignalMessage enum; its variant
shapes are taken from their uses in this file: SessionJoin(session_id, is_host),
SessionReady(session_id, user_id), and forwarded messages carrying
(payload, session_id).  Only the SessionJoin arm of this handler type-checks
against this module's Session { host, users }; the SdpOffer/SdpAnswer/
IceCandidate arms refer to first/second/offer_received fields this Session does
not have, so they are modeled as no-ops here and no claim is settled on them. -/

/-- Root SignalMessage of the rusty-games protocol, as used by one_to_many.rs. -/
inductive RGSignalMessage where
  | sessionJoin (sessionId : SessionId) (isHost : Bool)
  | sessionReady (sessionId : SessionId) (userId : UserId)
  | sdpOffer (sdp : String) (sessionId : SessionId)
  | sdpAnswer (sdp : String) (sessionId : SessionId)
  | iceCandidate (candidate : String) (sessionId : SessionId)
  deriving DecidableEq, Repr

/-- Session of the one-to-many registry:
struct Session { host: Option of UserId, users: Vec of UserId }. -/
structure OMSession where
  host : Option UserId
  users : List UserId
  deriving DecidableEq, Repr

/-- Shared server state of the one-to-many handler. -/
structure OMServerState where
  connections : List UserId
  sessions : List (SessionId × OMSession)
  deriving DecidableEq, Repr

/-- Result of one call to one_to_many user_message. -/
structure OMStepResult where
  state : OMServerState
  sends : List (UserId × RGSignalMessage)
  panicked : Bool
  deriving DecidableEq, Repr

/-- entry(key).or_insert(default) followed by writing the updated session back. -/
def omUpdateSessions (sessions : List (SessionId × OMSession)) (sid : SessionId)
    (s : OMSession) : List (SessionId × OMSession) :=
  if sessions.any (fun p => p.1 = sid) then
    sessions.map (fun p => if p.1 = sid then (sid, s) else p)
  else
    sessions ++ [(sid, s)]

/-- The SessionJoin arm of user_message in one_to_many.rs.
With is_host = true and no host recorded: record the sender as host and send
the sender one SessionReady(sid, client_id) per already-present client (the
connection looked up is the sender's own).
With is_host = true and a host already recorded: log an error and return -- no
message is sent to anyone and the session is unchanged.
Otherwise (a client join): push the sender onto users and, if a host is
recorded, send SessionReady(sid, sender) to the HOST.
Connection lookups use .expect(), so a missing entry panics. -/
def omSessionJoin (userId : UserId) (sid : SessionId) (isHost : Bool)
    (st : OMServerState) : OMStepResult :=
  let session := (st.sessions.lookup sid).getD ⟨none, []⟩
  if isHost ∧ session.host = none then
    let session2 : OMSession := { session with host := some userId }
    { state := { st with sessions := omUpdateSessions st.sessions sid session2 },
      sends := if userId ∈ st.connections then
          session.users.map (fun clientId => (userId, RGSignalMessage.sessionReady sid clientId))
        else [],
      panicked := decide (¬ userId ∈ st.connections ∧ session.users ≠ []) }
  else if isHost ∧ session.host ≠ none then
    { state := { st with sessions := omUpdateSessions st.sessions sid session },
      sends := [], panicked := false }
  else
    let session2 : OMSession := { session with users := session.users ++ [userId] }
    let st2 : OMServerState := { st with sessions := omUpdateSessions st.sessions sid session2 }
    match session.host with
    | some hostId =>
        if hostId ∈ st.connections then
          { state := st2,
            sends := [(hostId, RGSignalMessage.sessionReady sid userId)],
            panicked := false }
        else
          { state := st2, sends := [], panicked := true }
    | none =>
        { state := st2, sends := [], panicked := false }

/-- user_message of one_to_many.rs (see the module note: only the SessionJoin
arm is meaningful; the remaining arms are modeled as no-ops). -/
def omUserMessage (userId : UserId) (msg : RGSignalMessage) (st : OMServerState) :
    OMStepResult :=
  match msg with
  | .sessionJoin sid isHost => omSessionJoin userId sid isHost st
  | _ => { state := st, sends := [], panicked := false }

/-! ### Peer library: one-to-many websocket handler
(src/library/src/one_to_many/websocket_handler.rs) -/

/-- Observable side effects of the peer-side handler functions, in program
order: building the RtcPeerConnection, installing callbacks, creating the data
channel, sending a message over the signaling websocket, and recording the
connection in the NetworkManager (with or without a data channel). -/
inductive PeerEffect where
  | createPeerConnection
  | setOnDataChannel (peerId : UserId)
  | setOnIceCandidate (peerId : UserId)
  | setOnIceConnectionStateChange
  | setOnIceGatheringStateChange
  | setOnNegotiationNeeded
  | createDataChannel (label : String)
  | setDataChannelOnOpen (peerId : UserId)
  | setDataChannelOnError
  | setDataChannelOnMessage (peerId : UserId)
  | wsSend (message : OTMSignalMessage)
  | insertConnection (peerId : UserId) (hasDataChannel : Bool)
  deriving DecidableEq, Repr

/-- session_ready of websocket_handler.rs: the peer that receives
SessionReady(session_id, peer_id) builds a peer connection, creates the data
channel (label "sessionId-peerId", unordered, bounded retransmits), wires the
channel callbacks, creates an SDP offer (the platform-produced SDP string is
the offer parameter) and sends SdpOffer(session_id, peer_id, offer), then
records the connection together with its data channel. -/
def sessionReadyEffects (sid : SessionId) (peerId : UserId) (offer : String) :
    List PeerEffect :=
  [PeerEffect.createPeerConnection,
   PeerEffect.setOnDataChannel peerId,
   PeerEffect.setOnIceCandidate peerId,
   PeerEffect.setOnIceConnectionStateChange,
   PeerEffect.setOnIceGatheringStateChange,
   PeerEffect.setOnNegotiationNeeded,
   PeerEffect.createDataChannel (sid ++ "-" ++ toString peerId),
   PeerEffect.setDataChannelOnOpen peerId,
   PeerEffect.setDataChannelOnError,
   PeerEffect.setDataChannelOnMessage peerId,
   PeerEffect.wsSend (OTMSignalMessage.sdpOffer sid peerId offer),
   PeerEffect.insertConnection peerId true]

/-- sdp_offer of websocket_handler.rs: the peer that receives an SdpOffer
builds a peer connection, records it WITHOUT a data channel (the channel will
arrive through the on-data-channel event), creates an SDP answer (the
platform-produced SDP string is the answer parameter) and sends
SdpAnswer(session_id, peer_id, answer).  It creates no data channel itself. -/
def sdpOfferEffects (sid : SessionId) (peerId : UserId) (answer : String) :
    List PeerEffect :=
  [PeerEffect.createPeerConnection,
   PeerEffect.setOnDataChannel peerId,
   PeerEffect.setOnIceCandidate peerId,
   PeerEffect.setOnIceConnectionStateChange,
   PeerEffect.setOnIceGatheringStateChange,
   PeerEffect.setOnNegotiationNeeded,
   PeerEffect.insertConnection peerId false,
   PeerEffect.wsSend (OTMSignalMessage.sdpAnswer sid peerId answer)]

/-- True exactly on a data-channel-creation effect. -/
def PeerEffect.isCreateDataChannel : PeerEffect → Bool
  | .createDataChannel _ => true
  | _ => false

/-! ### Peer library: data-channel on-message callback
(set_data_channel_on_message in src/library/src/one_to_many/callbacks.rs) -/

/-- Outcome of delivering one text message to the data channel's on-message
closure: either the user callback is invoked with a payload, or the closure
panics (the .expect on strip-sentinel fired). -/
inductive DataChannelOutcome where
  | callback (clientId : UserId) (message : String)
  | panicked (reason : String)
  deriving DecidableEq, Repr

/-- The on-message closure installed by set_data_channel_on_message: the
received text is required to begin with the sentinel character x (a workaround
for empty-string messages); the user callback receives the text minus that
first character, and a text not starting with the sentinel hits
.expect("messages must have a fix-bug x prepended") and panics. -/
def dataChannelOnMessage (clientId : UserId) (message : String) : DataChannelOutcome :=
  match message.data with
  | [] => DataChannelOutcome.panicked "messages must have a fix-bug x prepended"
  | c :: rest =>
      if c = 'x' then DataChannelOutcome.callback clientId (String.mk rest)
      else DataChannelOutcome.panicked "messages must have a fix-bug x prepended"

/-! ### CLI entry point (src/signaling-server/src/main.rs) -/

/-- The bind address computed by main: env::args().nth(1) (the first
command-line argument after the program name), with the fallback string used
when it is absent.  argv includes the program name at index 0. -/
def mainBindAddress (argv : List String) : String :=
  (argv.get? 1).getD "127.0.0.1:9001"

/-! ### UserId allocation (static NEXT_USER_ID: AtomicUsize = AtomicUsize::new(1)
in src/signaling-server/src/one_to_one.rs) -/

/-- usize arithmetic wraps at 2 to the 64th power. -/
def usizeWrap (n : Nat) : Nat := n % 2 ^ 64

/-- The ids handed out by k successive NEXT_USER_ID.fetch_add(1, Relaxed)
calls starting from counter value c: each call returns the current value and
stores the wrapped successor. -/
def fetchAddSeq : Nat → Nat → List Nat
  | _, 0 => []
  | c, k + 1 => c :: fetchAddSeq (usizeWrap (c + 1)) k

/-- The ids allocated to the first k accepted connections: the counter is
initialized to 1. -/
def allocatedUserIds (k : Nat) : List Nat := fetchAddSeq 1 k

/-! ## Theorems -/

/-- Claim C1: for every SdpOffer, SdpAnswer or IceCandidate received by the
many-to-many handler, the forwarded message carries the sender's UserId in the
peer-id slot; the client-supplied peer-id only selects the recipient and never
appears in the forwarded message, and the session id and payload are forwarded
unchanged (and the registries are untouched). -/
theorem mm_forward_substitutes_sender_id
    (senderId recipientId : UserId) (sid : SessionId) (payload : String)
    (st : MMServerState) :
    (mmUserMessage senderId (.sdpOffer sid recipientId payload) st).sends =
      (if recipientId ∈ st.connections then
        [(recipientId, OTMSignalMessage.sdpOffer sid senderId payload)] else []) ∧
    (mmUserMessage senderId (.sdpAnswer sid recipientId payload) st).sends =
      (if recipientId ∈ st.connections then
        [(recipientId, OTMSignalMessage.sdpAnswer sid senderId payload)] else []) ∧
    (mmUserMessage senderId (.iceCandidate sid recipientId payload) st).sends =
      (if recipientId ∈ st.connections then
        [(recipientId, OTMSignalMessage.iceCandidate sid senderId payload)] else []) ∧
    (mmUserMessage senderId (.sdpOffer sid recipientId payload) st).state = st ∧
    (mmUserMessage senderId (.sdpAnswer sid recipientId payload) st).state = st ∧
    (mmUserMessage senderId (.iceCandidate sid recipientId payload) st).state = st :=
  ⟨rfl, rfl, rfl, rfl, rfl, rfl⟩

/-- Claim C6 counterexample: user 3 is connected but is not a member of
session s (whose members are 1 and 2), yet the SdpOffer user 1 addresses to
recipient 3 IS delivered to 3, and no Error message is emitted to anyone. -/
theorem mm_forward_ignores_membership_counterexample :
    (mmUserMessage 1 (.sdpOffer "s" 3 "sdp-offer")
        ⟨[1, 2, 3], [("s", ⟨[1, 2]⟩)]⟩).sends
      = [(3, OTMSignalMessage.sdpOffer "s" 1 "sdp-offer")] ∧
    (3 ∉ ((⟨[1, 2]⟩ : MMSession)).users) ∧
    ((mmUserMessage 1 (.sdpOffer "s" 3 "sdp-offer")
        ⟨[1, 2, 3], [("s", ⟨[1, 2]⟩)]⟩).sends.all (fun p => !p.2.isErr)) = true := by
  refine ⟨by decide, by decide, by decide⟩

/-- Claim C6 amended: the many-to-many forward path validates the stated
recipient only against the connection registry, never against session
membership.  When the recipient is not connected, nothing is sent (so in
particular no Error message reaches anyone; SdpOffer/SdpAnswer merely log,
while IceCandidate makes the handler return Err). -/
theorem mm_forward_checks_connections_only
    (senderId recipientId : UserId) (sid : SessionId) (payload : String)
    (st : MMServerState) (h : recipientId ∉ st.connections) :
    (mmUserMessage senderId (.sdpOffer sid recipientId payload) st).sends = [] ∧
    (mmUserMessage senderId (.sdpAnswer sid recipientId payload) st).sends = [] ∧
    (mmUserMessage senderId (.iceCandidate sid recipientId payload) st).sends = [] ∧
    (mmUserMessage senderId (.iceCandidate sid recipientId payload) st).errored = true := by
  simp [mmUserMessage, h]

/-- Witness for the amended C6 theorem at a concrete state: recipient 7 is not
connected, so all three forwards drop the message and the candidate arm errors. -/
theorem mm_forward_checks_connections_only_witness :
    (mmUserMessage 1 (.sdpOffer "s" 7 "p") ⟨[1, 2], [("s", ⟨[1, 2]⟩)]⟩).sends = [] ∧
    (mmUserMessage 1 (.sdpAnswer "s" 7 "p") ⟨[1, 2], [("s", ⟨[1, 2]⟩)]⟩).sends = [] ∧
    (mmUserMessage 1 (.iceCandidate "s" 7 "p") ⟨[1, 2], [("s", ⟨[1, 2]⟩)]⟩).sends = [] ∧
    (mmUserMessage 1 (.iceCandidate "s" 7 "p") ⟨[1, 2], [("s", ⟨[1, 2]⟩)]⟩).errored = true :=
  mm_forward_checks_connections_only 1 7 "s" "p" ⟨[1, 2], [("s", ⟨[1, 2]⟩)]⟩ (by decide)

/-- Claim C2 counterexample: host 1 is already in session s; when the client 2
joins, the server's only outbound message is SessionReady(s, 2) delivered to
the HOST (user 1) -- the newcomer receives nothing, so the newcomer is not the
peer introduced via SessionReady. -/
theorem om_session_ready_sent_to_host_counterexample :
    (omUserMessage 2 (.sessionJoin "s" false) ⟨[1, 2], [("s", ⟨some 1, []⟩)]⟩).sends
        = [(1, RGSignalMessage.sessionReady "s" 2)] ∧
    ((omUserMessage 2 (.sessionJoin "s" false) ⟨[1, 2], [("s", ⟨some 1, []⟩)]⟩).sends.all
        (fun p => p.1 != 2)) = true := by
  refine ⟨by decide, by decide⟩

/-- Claim C2 amended: when a client joins a 1:N session whose host is present,
the server sends SessionReady(session_id, newcomer_id) to the HOST, not to the
newcomer, and appends the newcomer to the session's users; in the peer library
the peer that receives SessionReady (hence the host) is the one that creates
the data channel and emits the SdpOffer, while the peer receiving that offer
creates no data channel and answers with SdpAnswer. -/
theorem om_client_join_host_is_offerer
    (sid : SessionId) (userId hostId : UserId) (users : List UserId)
    (st : OMServerState) (offer answer : String)
    (hs : st.sessions.lookup sid = some ⟨some hostId, users⟩)
    (hc : hostId ∈ st.connections) :
    (omUserMessage userId (.sessionJoin sid false) st).sends
        = [(hostId, RGSignalMessage.sessionReady sid userId)] ∧
    (omUserMessage userId (.sessionJoin sid false) st).state.sessions
        = omUpdateSessions st.sessions sid ⟨some hostId, users ++ [userId]⟩ ∧
    PeerEffect.createDataChannel (sid ++ "-" ++ toString userId)
        ∈ sessionReadyEffects sid userId offer ∧
    PeerEffect.wsSend (OTMSignalMessage.sdpOffer sid userId offer)
        ∈ sessionReadyEffects sid userId offer ∧
    ((sdpOfferEffects sid userId answer).all (fun e => !e.isCreateDataChannel)) = true ∧
    PeerEffect.wsSend (OTMSignalMessage.sdpAnswer sid userId answer)
        ∈ sdpOfferEffects sid userId answer := by
  refine ⟨?_, ?_, ?_, ?_, rfl, ?_⟩
  · simp [omUserMessage, omSessionJoin, hs, hc]
  · simp [omUserMessage, omSessionJoin, hs, hc]
  · simp [sessionReadyEffects]
  · simp [sessionReadyEffects]
  · simp [sdpOfferEffects]

/-- Witness for the amended C2 theorem at a concrete state: host 1 present in
session s, client 2 joins, the SessionReady goes to user 1. -/
theorem om_client_join_host_is_offerer_witness :
    (omUserMessage 2 (.sessionJoin "s" false) ⟨[1, 2], [("s", ⟨some 1, []⟩)]⟩).sends
        = [(1, RGSignalMessage.sessionReady "s" 2)] ∧
    (omUserMessage 2 (.sessionJoin "s" false) ⟨[1, 2], [("s", ⟨some 1, []⟩)]⟩).state.sessions
        = omUpdateSessions [("s", ⟨some 1, []⟩)] "s" ⟨some 1, [] ++ [2]⟩ ∧
    PeerEffect.createDataChannel ("s" ++ "-" ++ toString 2)
        ∈ sessionReadyEffects "s" 2 "sdp-offer" ∧
    PeerEffect.wsSend (OTMSignalMessage.sdpOffer "s" 2 "sdp-offer")
        ∈ sessionReadyEffects "s" 2 "sdp-offer" ∧
    ((sdpOfferEffects "s" 2 "sdp-answer").all (fun e => !e.isCreateDataChannel)) = true ∧
    PeerEffect.wsSend (OTMSignalMessage.sdpAnswer "s" 2 "sdp-answer")
        ∈ sdpOfferEffects "s" 2 "sdp-answer" :=
  om_client_join_host_is_offerer "s" 2 1 [] ⟨[1, 2], [("s", ⟨some 1, []⟩)]⟩
    "sdp-offer" "sdp-answer" (by decide) (by decide)

/-- Claim C4 counterexample: host 1 already holds session s; when user 2 sends
SessionJoin(s, is_host = true), the handler sends NO message at all (in
particular no Error reaches the offender) and leaves the state unchanged. -/
theorem om_duplicate_host_no_error_counterexample :
    omUserMessage 2 (.sessionJoin "s" true) ⟨[1, 2], [("s", ⟨some 1, []⟩)]⟩
      = ⟨⟨[1, 2], [("s", ⟨some 1, []⟩)]⟩, [], false⟩ := by
  decide

/-- Claim C4 amended: a SessionJoin with is_host = true for a session whose
host is already set is rejected silently -- the handler only logs server-side
and returns: no message of any kind is sent to the offending sender, and the
session is written back unchanged, its host still the original one (so at most
one host is ever set). -/
theorem om_duplicate_host_rejected_silently
    (sid : SessionId) (userId hostId : UserId) (users : List UserId)
    (st : OMServerState)
    (hs : st.sessions.lookup sid = some ⟨some hostId, users⟩) :
    (omUserMessage userId (.sessionJoin sid true) st).sends = [] ∧
    (omUserMessage userId (.sessionJoin sid true) st).state.sessions
        = omUpdateSessions st.sessions sid ⟨some hostId, users⟩ ∧
    (omUserMessage userId (.sessionJoin sid true) st).panicked = false := by
  simp [omUserMessage, omSessionJoin, hs]

/-- Witness for the amended C4 theorem at a concrete state. -/
theorem om_duplicate_host_rejected_silently_witness :
    (omUserMessage 2 (.sessionJoin "s" true) ⟨[1, 2], [("s", ⟨some 1, []⟩)]⟩).sends = [] ∧
    (omUserMessage 2 (.sessionJoin "s" true) ⟨[1, 2], [("s", ⟨some 1, []⟩)]⟩).state.sessions
        = omUpdateSessions [("s", ⟨some 1, []⟩)] "s" ⟨some 1, []⟩ ∧
    (omUserMessage 2 (.sessionJoin "s" true) ⟨[1, 2], [("s", ⟨some 1, []⟩)]⟩).panicked = false :=
  om_duplicate_host_rejected_silently "s" 2 1 [] ⟨[1, 2], [("s", ⟨some 1, []⟩)]⟩ (by decide)

/-- Claim C3 (code bug): session s already has both members (first = 1,
second = 2), yet a SessionJoin from user 3 OVERWRITES second with 3 and sends
SessionReady(s, true) to user 1 and SessionReady(s, false) to user 3 -- no
Error is emitted and the membership record changes, contrary to the
documented full-session behavior. -/
theorem oo_full_session_third_join_overwrites :
    ooUserMessage 3 (.sessionJoin "s") ⟨[1, 2, 3], [("s", ⟨some 1, some 2, false⟩)]⟩
      = ⟨⟨[1, 2, 3], [("s", ⟨some 1, some 3, false⟩)]⟩,
         [(1, OOSignalMessage.sessionReady "s" true),
          (3, OOSignalMessage.sessionReady "s" false)],
         false⟩ := by
  decide

/-- Claim C5 (code bug): with session s holding members 1 and 2, the first
SdpOffer from user 1 is relayed to user 2 and sets offer_received; a second
SdpOffer from user 1, arriving with offer_received already true, is STILL
relayed to user 2 -- the flag only selects a warning log and never suppresses
the relay, so both consecutive offers propagate. -/
theorem oo_second_offer_still_relayed :
    ((ooUserMessage 1 (.sdpOffer "s" "offer-1")
        ⟨[1, 2], [("s", ⟨some 1, some 2, false⟩)]⟩).sends
      = [(2, OOSignalMessage.sdpOffer "s" "offer-1")]) ∧
    ((ooUserMessage 1 (.sdpOffer "s" "offer-1")
        ⟨[1, 2], [("s", ⟨some 1, some 2, false⟩)]⟩).state
      = ⟨[1, 2], [("s", ⟨some 1, some 2, true⟩)]⟩) ∧
    ((ooUserMessage 1 (.sdpOffer "s" "offer-2")
        ⟨[1, 2], [("s", ⟨some 1, some 2, true⟩)]⟩).sends
      = [(2, OOSignalMessage.sdpOffer "s" "offer-2")]) := by
  refine ⟨by decide, by decide, by decide⟩

/-- Claim C7 (code bug): user 1 is the sole member of both sessions a and b.
After the 1:1 disconnect handling, the emptied session a is still present in
the registry (only the last emptied session, b, was removed); after the
many-to-many disconnect handling, the scan stops at the first emptied session
a, so the departed user 1 is still recorded as a member of session b. -/
theorem disconnect_leaves_stale_sessions :
    (ooUserDisconnected 1
        ⟨[1], [("a", ⟨some 1, none, false⟩), ("b", ⟨some 1, none, false⟩)]⟩
      = ⟨[], [("a", ⟨none, none, false⟩)]⟩) ∧
    (("a", (⟨none, none, false⟩ : OOSession)) ∈
      (ooUserDisconnected 1
        ⟨[1], [("a", ⟨some 1, none, false⟩), ("b", ⟨some 1, none, false⟩)]⟩).sessions) ∧
    (mmUserDisconnected 1 ⟨[1], [("a", ⟨[1]⟩), ("b", ⟨[1]⟩)]⟩
      = ⟨[], [("b", ⟨[1]⟩)]⟩) ∧
    (("b", (⟨[1]⟩ : MMSession)) ∈
      (mmUserDisconnected 1 ⟨[1], [("a", ⟨[1]⟩), ("b", ⟨[1]⟩)]⟩).sessions) := by
  refine ⟨by decide, by decide, by decide, by decide⟩

/-- Helper: as long as the counter cannot wrap, the fetch-add sequence from c
is the arithmetic progression c, c+1, ... of length k. -/
theorem fetchAddSeq_eq_range (c k : Nat) (h : c + k ≤ 2 ^ 64) :
    fetchAddSeq c k = List.range' c k := by
  induction k generalizing c with
  | zero => rfl
  | succ k ih =>
      cases k with
      | zero => rfl
      | succ m =>
          have hlt : c + 1 < 2 ^ 64 := by omega
          rw [fetchAddSeq, usizeWrap, Nat.mod_eq_of_lt hlt, ih (c + 1) (by omega),
            List.range'_succ, List.range'_succ, List.range'_succ]

/-- Claim C8: user ids are drawn from a counter starting at 1 -- across the
first k accepted connections (any number reachable in a process lifetime,
i.e. before the usize counter could wrap) the allocated ids are exactly
1, 2, ..., k: the first connection receives 1, each later connection receives
a strictly larger id than every earlier one, and no id is ever repeated. -/
theorem user_id_allocation_monotonic (k : Nat) (h : k + 1 ≤ 2 ^ 64) :
    allocatedUserIds k = List.range' 1 k ∧
    List.Pairwise (· < ·) (allocatedUserIds k) ∧
    (allocatedUserIds k).Nodup ∧
    (0 < k → (allocatedUserIds k).head? = some 1) := by
  have hr : allocatedUserIds k = List.range' 1 k :=
    fetchAddSeq_eq_range 1 k (by omega)
  refine ⟨hr, ?_, ?_, ?_⟩
  · rw [hr]
    exact List.pairwise_lt_range' 1 k
  · rw [hr]
    exact List.nodup_range' 1 k
  · intro hk
    rw [hr]
    cases k with
    | zero => omega
    | succ m => rw [List.range'_succ]; rfl

/-- Witness for the C8 theorem: the first three connections receive ids
1, 2, 3 in order. -/
theorem user_id_allocation_monotonic_witness :
    allocatedUserIds 3 = List.range' 1 3 ∧
    List.Pairwise (· < ·) (allocatedUserIds 3) ∧
    (allocatedUserIds 3).Nodup ∧
    (0 < 3 → (allocatedUserIds 3).head? = some 1) :=
  user_id_allocation_monotonic 3 (by norm_num)

/-- Claim C9: the 1:N data-channel on-message closure delivers the received
text minus its leading sentinel character x to the user callback, and panics
(via the expect on the stripped prefix) on any received text that does not
start with that sentinel. -/
theorem data_channel_on_message_strips_sentinel (clientId : UserId) (message : String) :
    dataChannelOnMessage clientId message =
      if message.data.head? = some 'x' then
        DataChannelOutcome.callback clientId (String.mk message.data.tail)
      else
        DataChannelOutcome.panicked "messages must have a fix-bug x prepended" := by
  cases message with
  | mk data =>
      cases data with
      | nil => rfl
      | cons c rest =>
          by_cases hc : c = 'x'
          · simp [dataChannelOnMessage, hc]
          · simp [dataChannelOnMessage, hc]

/-- Claim C10 counterexample: started with no command-line argument (argv holds
only the program name), the signaling server binds 127.0.0.1:9001, not
0.0.0.0:9001. -/
theorem main_default_bind_address_counterexample :
    mainBindAddress ["signaling-server"] = "127.0.0.1:9001" ∧
    mainBindAddress ["signaling-server"] ≠ "0.0.0.0:9001" := by
  refine ⟨rfl, by decide⟩

/-- Claim C10 amended: with no command-line argument the bind address defaults
to 127.0.0.1:9001. -/
theorem main_default_bind_address (program : String) :
    mainBindAddress [program] = "127.0.0.1:9001" := rfl
